import Mathlib

/-
Shallow embedding of the law backend API, translated from
src/unnamed/part_000 (full API) and src/back/server.js (signup, login,
profile and the auth middleware, identical logic). Pure request logic is
embedded as Lean functions; the fallible store, network and filesystem
calls of the upload pipeline are driven by an explicit per-request oracle
of step outcomes, and the persisted state is threaded explicitly.
-/

namespace Law

/-- Status enumeration of a stored document (documentSchema.status). -/
inductive DocStatus where
  | uploaded
  | processing
  | analyzed
  | error
deriving DecidableEq

/-- One entry of importantDates; the source field named type is rendered
    here as dtype. -/
structure DateEntry where
  dtype : String
  date : String
deriving DecidableEq

/-- Internal jargon info stored on a document, the value type of the
    jargonsFound map. -/
structure JargonInfo where
  meaning : String
  occurrences : Nat
  originalTerm : String
deriving DecidableEq

/-- The complexityAnalysis subdocument. -/
structure ComplexityInfo where
  complexity : String
  score : Rat
  jargonCount : Nat
  totalWords : Nat
deriving DecidableEq

/-- Stored jargonAnalysis subdocument; the mongoose Map is rendered as an
    association list in insertion order. -/
structure JargonAnalysisDoc where
  jargonsFound : List (String × JargonInfo)
  simplifiedText : String
  totalJargons : Nat
  jargonSummary : String
  complexityAnalysis : ComplexityInfo
deriving DecidableEq

/-- A stored Document record. -/
structure Doc where
  id : String
  userId : String
  fileName : String
  status : DocStatus
  classification : Option String
  confidence : Option Rat
  keyTerms : List String
  summary : String
  importantDates : List DateEntry
  partiesInvolved : List String
  jargonAnalysis : Option JargonAnalysisDoc
deriving DecidableEq

/-- A stored User record; the password field holds the bcrypt hash, as in
    the source schema. -/
structure User where
  id : String
  firstName : String
  lastName : String
  email : String
  password : String
deriving DecidableEq

/-- Idealized model of bcrypt.hash with salt rounds 10: deterministic and
    collision free. Hash internals are out of scope per the spec. -/
def bcryptHash (pw : String) : String := "bcrypt10$" ++ pw

/-- Model of bcrypt.compare: succeeds exactly when the candidate password
    hashes to the stored hash. -/
def bcryptCompare (pw stored : String) : Bool := stored == bcryptHash pw

/-- Model of a signed JWT: payload id, issue and expiry times in seconds,
    and the signing secret standing in for the signature. -/
structure SignedToken where
  id : String
  iat : Nat
  exp : Nat
  sig : String
deriving DecidableEq

/-- jwt.sign with expiresIn one hour. -/
def jwtSign (uid secret : String) (now : Nat) : SignedToken :=
  ⟨uid, now, now + 3600, secret⟩

/-- jwt.verify on a structured token: checks the signature and that the
    token has not expired. -/
def jwtVerifyTok (t : SignedToken) (secret : String) (now : Nat) : Option String :=
  if t.sig == secret && decide (now < t.exp) then some t.id else none

/-- Result of the signup route; dupEmail is the 400 duplicate response and
    serverError the 500 branch of the catch. -/
inductive SignupResult where
  | created
  | dupEmail
  | serverError
deriving DecidableEq

/-- The signup handler: User.findOne by email, reject an existing email
    with 400 before any create, otherwise hash and create. The two Boolean
    flags model the awaited store and hash calls rejecting, which the catch
    maps to a 500 response. -/
def signup (store : List User) (fn ln email pw newId : String)
    (findThrows createThrows : Bool) : SignupResult × List User :=
  if findThrows then (.serverError, store)
  else
    match store.find? (fun u => u.email == email) with
    | some _ => (.dupEmail, store)
    | none =>
        if createThrows then (.serverError, store)
        else (.created, store ++ [⟨newId, fn, ln, email, bcryptHash pw⟩])

/-- Result of the login route; badCreds is the 400 Invalid credentials
    response. -/
inductive LoginResult where
  | okTok (tok : SignedToken)
  | badCreds
  | serverError
deriving DecidableEq

/-- The login handler: User.findOne by email, bcrypt.compare against the
    stored hash, then a one hour token signed with the configured secret. -/
def login (store : List User) (email pw secret : String) (now : Nat)
    (findThrows : Bool) : LoginResult :=
  if findThrows then .serverError
  else
    match store.find? (fun u => u.email == email) with
    | none => .badCreds
    | some u =>
        if bcryptCompare pw u.password then .okTok (jwtSign u.id secret now)
        else .badCreds

/-- Result of the get document route; notFound is the 404 response. -/
inductive DocResult where
  | found (d : Doc)
  | notFound
  | serverError
deriving DecidableEq

/-- The get document handler: Document.findOne filtering by both the
    requested id and the requesting userId, so a miss of either filter
    takes the same 404 branch. -/
def getDocument (docs : List Doc) (uid did : String) (findThrows : Bool) : DocResult :=
  if findThrows then .serverError
  else
    match docs.find? (fun d => d.id == did && d.userId == uid) with
    | none => .notFound
    | some d => .found d

/-- JS String.split with a single space separator: splits at every space
    character, keeps empty fragments, and yields one fragment for the
    empty string. -/
def jsSplit : List Char → List (List Char)
  | [] => [[]]
  | c :: rest =>
      if c = ' ' then [] :: jsSplit rest
      else
        match jsSplit rest with
        | [] => [[c]]
        | w :: ws => (c :: w) :: ws

/-- Outcome of the auth middleware; the two failures are the two distinct
    401 responses of the source. -/
inductive AuthResult where
  | noToken
  | invalidToken
  | okUser (uid : String)
deriving DecidableEq

/-- The auth middleware: read the authorization header through the
    optional chain, split on a single space and take index 1; an undefined
    or empty token is the no-token 401, otherwise jwt.verify decides
    between success and the invalid-token 401. The verify parameter
    abstracts jwt.verify with the configured secret. -/
def authCheck (verify : List Char → Option String)
    (header : Option (List Char)) : AuthResult :=
  match header with
  | none => .noToken
  | some h =>
      match (jsSplit h).get? 1 with
      | none => .noToken
      | some t =>
          if t = [] then .noToken
          else
            match verify t with
            | some uid => .okUser uid
            | none => .invalidToken

/-- A serialized JSON response: status code and message. -/
structure ApiResponse where
  status : Nat
  message : String
deriving DecidableEq

/-- Store operations a handler can perform, logged for ordering facts. -/
inductive StoreOp where
  | readUsers
  | writeUsers
  | readDocs
  | writeDocs
deriving DecidableEq

/-- The two persistent stores behind the API. -/
structure Stores where
  users : List User
  docs : List Doc
deriving DecidableEq

def noTokenResp : ApiResponse := ⟨401, "No token provided, authorization denied"⟩

def invalidTokenResp : ApiResponse := ⟨401, "Token is not valid"⟩

/-- A protected express route: the auth middleware runs first and sends
    its 401 without calling next, so the handler, and any store access it
    would log, runs only when the token verifies. -/
def runProtected (verify : List Char → Option String) (header : Option (List Char))
    (handler : String → Stores → ApiResponse × Stores × List StoreOp)
    (st : Stores) : ApiResponse × Stores × List StoreOp :=
  match authCheck verify header with
  | .noToken => (noTokenResp, st, [])
  | .invalidToken => (invalidTokenResp, st, [])
  | .okUser uid => handler uid st

/-- Incoming jargon info from the classification service, snake case; the
    original term field may be absent. -/
structure JargonInfoIn where
  meaning : String
  occurrences : Nat
  original_term : Option String
deriving DecidableEq

/-- Incoming jargon_analysis payload; every field may be absent, matching
    the fallback defaults applied in the handler. -/
structure JargonAnalysisIn where
  jargons_found : Option (List (String × JargonInfoIn))
  simplified_text : Option String
  total_jargons : Option Nat
  jargon_summary : Option String
  complexity_analysis : Option ComplexityInfo
deriving DecidableEq

/-- The classification service response body, snake case fields. -/
structure ClassResponse where
  success : Bool
  classification : String
  confidence : Rat
  key_terms : List String
  summary : String
  important_dates : List DateEntry
  parties_involved : List String
  jargon_analysis : Option JargonAnalysisIn
deriving DecidableEq

/-- The JS expression a || b on a possibly absent string a: an absent or
    empty, hence falsy, left operand yields the right operand, otherwise
    the left string is kept. -/
def jsOr (o : Option String) (k : String) : String :=
  match o with
  | none => k
  | some s => if s = "" then k else s

/-- The success branch of the upload handler: copy the snake case response
    fields onto the document, rebuild the jargon map with originalTerm
    computed by the truthiness fallback of the source, so an absent or
    empty original_term falls back to the term key, and mark the document
    analyzed. -/
def applyClassification (d : Doc) (r : ClassResponse) : Doc :=
  let base : Doc := { d with
    status := DocStatus.analyzed,
    classification := some r.classification,
    confidence := some r.confidence,
    keyTerms := r.key_terms,
    summary := r.summary,
    importantDates := r.important_dates,
    partiesInvolved := r.parties_involved }
  match r.jargon_analysis with
  | none => base
  | some ja =>
      { base with jargonAnalysis := some {
          jargonsFound := (ja.jargons_found.getD []).map (fun p =>
            (p.1, ⟨p.2.meaning, p.2.occurrences, jsOr p.2.original_term p.1⟩)),
          simplifiedText := ja.simplified_text.getD "",
          totalJargons := ja.total_jargons.getD 0,
          jargonSummary := ja.jargon_summary.getD "",
          complexityAnalysis := ja.complexity_analysis.getD ⟨"Unknown", 0, 0, 0⟩ } }

/-- Outcome of the awaited axios classify call: a parsed response, a
    connection refusal, an HTTP error response carrying an optional error
    field, or any other network or timeout failure. -/
inductive ClassifyOutcome where
  | ok (r : ClassResponse)
  | connRefused
  | httpResp (errField : Option String)
  | netOther
deriving DecidableEq

/-- Per-request oracle fixing which fallible steps of the upload pipeline
    succeed: the initial save, the classify call, the analyzed save, the
    success path unlink, and the save and unlink inside the catch block. -/
structure UploadOracle where
  createSaveOk : Bool
  classifyResult : ClassifyOutcome
  analyzedSaveOk : Bool
  successUnlinkOk : Bool
  errorSaveOk : Bool
  errorUnlinkOk : Bool
deriving DecidableEq

/-- The multer file object attached to the request. -/
structure FileInfo where
  originalname : String
  mimetype : String
  size : Nat
  path : String
deriving DecidableEq

/-- An upload request after authentication: the requesting user, the store
    assigned id of the new record, and the optional multer file. -/
structure UploadReq where
  userId : String
  newDocId : String
  file : Option FileInfo
deriving DecidableEq

/-- What the request ends as: a sent response, or an exception escaping
    the catch block, after which no response is ever sent. -/
inductive UploadOutcome where
  | responded (status : Nat) (message : String)
  | crashed
deriving DecidableEq

def outcomeStatus : UploadOutcome → Option Nat
  | .responded s _ => some s
  | .crashed => none

/-- Store and disk state threaded through one upload request: document
    statuses persisted so far in order, the currently stored record, and
    whether the multer temp file still exists. -/
structure UploadState where
  saves : List DocStatus
  persisted : Option Doc
  tempFile : Bool
deriving DecidableEq

/-- One successful save: record the persisted status and replace the
    stored record. -/
def persist (st : UploadState) (d : Doc) : UploadState :=
  { st with saves := st.saves ++ [d.status], persisted := some d }

def genericFailMsg : String := "Document processing failed"

def unavailableMsg : String := "Model service is not available. Please try again later."

/-- Tail of the catch block after the error save: the existsSync guarded
    unlinkSync, then the 500 response; a throwing unlink escapes the
    catch block. -/
def catchCleanup (st : UploadState) (o : UploadOracle) (msg : String) :
    UploadOutcome × UploadState :=
  if st.tempFile then
    if o.errorUnlinkOk then (.responded 500 msg, { st with tempFile := false })
    else (.crashed, st)
  else (.responded 500 msg, st)

/-- The catch block of the upload handler: if a document object exists,
    set its status to error and save it; a rejection of that awaited save
    escapes the catch block, skipping both cleanup and the response. -/
def catchBlock (tempDocument : Option Doc) (st : UploadState) (o : UploadOracle)
    (msg : String) : UploadOutcome × UploadState :=
  match tempDocument with
  | none => catchCleanup st o msg
  | some d =>
      if o.errorSaveOk then
        catchCleanup (persist st { d with status := DocStatus.error }) o msg
      else (.crashed, st)

/-- The upload handler body after multer: 400 without a file, otherwise
    create the record as processing and save it, call the model service,
    and on a successful response map it, save, unlink the temp file and
    respond 200; every throw lands in the catch block with the error
    message mapping of the source. -/
def uploadHandler (req : UploadReq) (o : UploadOracle) : UploadOutcome × UploadState :=
  match req.file with
  | none => (.responded 400 "No document file uploaded", ⟨[], none, false⟩)
  | some f =>
      let st0 : UploadState := ⟨[], none, true⟩
      let d0 : Doc := ⟨req.newDocId, req.userId, f.originalname, DocStatus.processing,
        none, none, [], "", [], [], none⟩
      if o.createSaveOk then
        let st1 := persist st0 d0
        match o.classifyResult with
        | .ok r =>
            if r.success then
              let d1 := applyClassification d0 r
              if o.analyzedSaveOk then
                let st2 := persist st1 d1
                if o.successUnlinkOk then
                  (.responded 200 "Document uploaded and analyzed successfully",
                   { st2 with tempFile := false })
                else catchBlock (some d1) st2 o genericFailMsg
              else catchBlock (some d1) st1 o genericFailMsg
            else catchBlock (some d0) st1 o genericFailMsg
        | .connRefused => catchBlock (some d0) st1 o unavailableMsg
        | .httpResp e => catchBlock (some d0) st1 o (e.getD "Model processing error")
        | .netOther => catchBlock (some d0) st1 o genericFailMsg
      else catchBlock (some d0) st0 o genericFailMsg

/-- The multer middleware in front of the upload handler: fileFilter
    rejects a mimetype other than application/pdf and limits enforce the
    10MB cap. The app registers no error middleware, so such an error
    reaches the express default error handler, which responds 500 before
    the route handler ever runs; no temp file survives either rejection. -/
def uploadRoute (req : UploadReq) (o : UploadOracle) : UploadOutcome × UploadState :=
  match req.file with
  | none => uploadHandler req o
  | some f =>
      if f.mimetype = "application/pdf" then
        if f.size ≤ 10485760 then uploadHandler req o
        else (.responded 500 "File too large", ⟨[], none, false⟩)
      else (.responded 500 "Only PDF files are allowed", ⟨[], none, false⟩)

/-- True when some pipeline step after record creation fails: the
    classify call, the success flag of the response, the analyzed save,
    or the success path unlink. -/
def pipelineFails (o : UploadOracle) : Bool :=
  match o.classifyResult with
  | .ok r => !r.success || !o.analyzedSaveOk || !o.successUnlinkOk
  | _ => true

/-- A request with no file, a non pdf file, or an oversize file. -/
def badUploadReq (req : UploadReq) : Bool :=
  match req.file with
  | none => true
  | some f => (f.mimetype != "application/pdf") || decide (10485760 < f.size)

/- Concrete inputs used by counterexamples and witnesses. -/

/-- A well formed pdf upload file. -/
def pdfFile : FileInfo := ⟨"contract.pdf", "application/pdf", 1000, "uploads/tmp1"⟩

/-- An upload request carrying the pdf file. -/
def reqPdf : UploadReq := ⟨"userA", "doc1", some pdfFile⟩

/-- An upload request carrying a plain text file. -/
def reqTxt : UploadReq := ⟨"userA", "doc2", some ⟨"notes.txt", "text/plain", 5, "uploads/tmp2"⟩⟩

/-- The NDA response of the spec scenario: success, classification NDA,
    confidence 0.92, one key term and one jargon entry without an
    original_term field. -/
def rNda : ClassResponse :=
  ⟨true, "NDA", 0.92, ["confidential"], "", [], [],
    some ⟨some [("indemnify", ⟨"compensate for harm", 2, none⟩)], none, none, none, none⟩⟩

/-- Oracle where every step succeeds and the service returns the NDA
    response. -/
def oracleAllOk : UploadOracle := ⟨true, .ok rNda, true, true, true, true⟩

/-- Oracle where the classify call is refused and the catch block save
    also rejects. -/
def oracleDoubleFault : UploadOracle := ⟨true, .connRefused, true, true, false, true⟩

/-- Oracle where the classify call is refused but the catch block
    recovery succeeds. -/
def oracleClassifyFail : UploadOracle := ⟨true, .connRefused, true, true, true, true⟩

/-- Oracle where everything succeeds up to the analyzed save but the
    success path unlink throws, and the catch block recovery succeeds. -/
def oracleUnlinkFail : UploadOracle := ⟨true, .ok rNda, true, false, true, true⟩

/- Helper lemmas about the catch block. -/

theorem catchCleanup_persisted (st : UploadState) (o : UploadOracle) (msg : String) :
    ((catchCleanup st o msg).2).persisted = st.persisted := by
  unfold catchCleanup
  by_cases h : st.tempFile <;> by_cases h2 : o.errorUnlinkOk <;> simp [h, h2]

theorem catchCleanup_saves (st : UploadState) (o : UploadOracle) (msg : String) :
    ((catchCleanup st o msg).2).saves = st.saves := by
  unfold catchCleanup
  by_cases h : st.tempFile <;> by_cases h2 : o.errorUnlinkOk <;> simp [h, h2]

theorem catchCleanup_tempFile (st : UploadState) (o : UploadOracle) (msg : String)
    (hu : o.errorUnlinkOk = true) :
    ((catchCleanup st o msg).2).tempFile = false := by
  unfold catchCleanup
  by_cases h : st.tempFile <;> simp [h, hu]

theorem catchBlock_persisted (d : Doc) (st : UploadState) (o : UploadOracle)
    (msg : String) (he : o.errorSaveOk = true) :
    ((catchBlock (some d) st o msg).2).persisted = some { d with status := DocStatus.error } := by
  unfold catchBlock
  simp [he, catchCleanup_persisted, persist]

theorem catchBlock_saves (d : Doc) (st : UploadState) (o : UploadOracle) (msg : String) :
    ((catchBlock (some d) st o msg).2).saves =
      if o.errorSaveOk then st.saves ++ [DocStatus.error] else st.saves := by
  unfold catchBlock
  by_cases he : o.errorSaveOk <;> simp [he, catchCleanup_saves, persist]

theorem catchBlock_tempFile (td : Option Doc) (st : UploadState) (o : UploadOracle)
    (msg : String) (hs : o.errorSaveOk = true) (hu : o.errorUnlinkOk = true) :
    ((catchBlock td st o msg).2).tempFile = false := by
  unfold catchBlock
  cases td with
  | none => exact catchCleanup_tempFile st o msg hu
  | some d => simp [hs]; exact catchCleanup_tempFile _ o msg hu

/- Field lemmas about applyClassification. -/

theorem applyClassification_status (d : Doc) (r : ClassResponse) :
    (applyClassification d r).status = DocStatus.analyzed := by
  unfold applyClassification
  cases r.jargon_analysis <;> simp

theorem applyClassification_classification (d : Doc) (r : ClassResponse) :
    (applyClassification d r).classification = some r.classification := by
  unfold applyClassification
  cases r.jargon_analysis <;> simp

theorem applyClassification_confidence (d : Doc) (r : ClassResponse) :
    (applyClassification d r).confidence = some r.confidence := by
  unfold applyClassification
  cases r.jargon_analysis <;> simp

theorem applyClassification_keyTerms (d : Doc) (r : ClassResponse) :
    (applyClassification d r).keyTerms = r.key_terms := by
  unfold applyClassification
  cases r.jargon_analysis <;> simp

theorem applyClassification_summary (d : Doc) (r : ClassResponse) :
    (applyClassification d r).summary = r.summary := by
  unfold applyClassification
  cases r.jargon_analysis <;> simp

theorem applyClassification_importantDates (d : Doc) (r : ClassResponse) :
    (applyClassification d r).importantDates = r.important_dates := by
  unfold applyClassification
  cases r.jargon_analysis <;> simp

theorem applyClassification_partiesInvolved (d : Doc) (r : ClassResponse) :
    (applyClassification d r).partiesInvolved = r.parties_involved := by
  unfold applyClassification
  cases r.jargon_analysis <;> simp

/- Helper lemmas about jsSplit. -/

theorem jsSplit_no_space : ∀ cs : List Char, ' ' ∉ cs → jsSplit cs = [cs] := by
  intro cs h
  induction cs with
  | nil => rfl
  | cons c rest ih =>
      have hc : ¬ c = ' ' := fun hcc => h (hcc ▸ List.mem_cons_self c rest)
      have hr : ' ' ∉ rest := fun hm => h (List.mem_cons_of_mem c hm)
      simp only [jsSplit, if_neg hc, ih hr]

theorem jsSplit_word_space (s t : List Char) (hs : ' ' ∉ s) :
    jsSplit (s ++ ' ' :: t) = s :: jsSplit t := by
  induction s with
  | nil => simp [jsSplit]
  | cons c s' ih =>
      have hc : ¬ c = ' ' := fun hcc => hs (hcc ▸ List.mem_cons_self c s')
      have hs' : ' ' ∉ s' := fun hm => hs (List.mem_cons_of_mem c hm)
      simp only [List.cons_append, jsSplit, if_neg hc, List.append_eq, ih hs']

/-- C4: the get document operation never returns a document of another
    user. When every stored document carrying the requested id belongs to
    a different user, which subsumes the case of an id that does not exist
    at all, the outcome is the very same notFound value, so not-owned is
    indistinguishable from not-found; and whenever a document is returned
    it belongs to the requesting user. -/
theorem getDocument_never_cross_user (docs : List Doc) (uid did : String)
    (h : ∀ d ∈ docs, d.id = did → d.userId ≠ uid) :
    getDocument docs uid did false = DocResult.notFound
    ∧ ∀ (ft : Bool) (d : Doc),
        getDocument docs uid did ft = DocResult.found d → d.userId = uid := by
  have hnone : docs.find? (fun d => d.id == did && d.userId == uid) = none := by
    rw [List.find?_eq_none]
    intro d hd
    simp only [Bool.and_eq_true, beq_iff_eq, not_and]
    exact fun h1 => h d hd h1
  constructor
  · unfold getDocument
    simp [hnone]
  · intro ft d hfd
    unfold getDocument at hfd
    cases ft with
    | true => simp at hfd
    | false =>
        simp only [Bool.false_eq_true, if_false] at hfd
        cases hfind : docs.find? (fun d => d.id == did && d.userId == uid) with
        | none => rw [hfind] at hfd; simp at hfd
        | some d' =>
            rw [hfind] at hfd
            have hp := List.find?_some hfind
            simp only [Bool.and_eq_true, beq_iff_eq] at hp
            cases hfd
            exact hp.2

/-- C4 witness at a concrete store: user A requesting the document of
    user B obtains notFound. -/
def docB : Doc := ⟨"d1", "userB", "b.pdf", DocStatus.analyzed, none, none, [], "", [], [], none⟩

theorem getDocument_never_cross_user_witness :
    getDocument [docB] "userA" "d1" false = DocResult.notFound :=
  (getDocument_never_cross_user [docB] "userA" "d1" (by decide)).1

/-- C7: signup against a store already containing the email yields the
    duplicate failure, creates nothing, and leaves the user list exactly
    unchanged, whatever the create step would have done. -/
theorem signup_duplicate_email (store : List User) (fn ln email pw newId : String)
    (createThrows : Bool) (h : ∃ u ∈ store, u.email = email) :
    signup store fn ln email pw newId false createThrows = (SignupResult.dupEmail, store) := by
  obtain ⟨u, hu, he⟩ := h
  have hsome : (store.find? (fun v => v.email == email)).isSome = true := by
    rw [List.find?_isSome]
    exact ⟨u, hu, by simp [he]⟩
  obtain ⟨v, hv⟩ := Option.isSome_iff_exists.mp hsome
  unfold signup
  simp [hv]

def userBob : User := ⟨"u1", "Bob", "Roe", "bob@x.com", bcryptHash "pw1"⟩

theorem signup_duplicate_email_witness :
    signup [userBob] "Ann" "Doe" "bob@x.com" "pw2" "u2" false false
      = (SignupResult.dupEmail, [userBob]) :=
  signup_duplicate_email [userBob] "Ann" "Doe" "bob@x.com" "pw2" "u2" false
    ⟨userBob, by simp, rfl⟩

/-- C8: login issues a token exactly when the email finds a stored user
    and the password matches the stored hash of that user; on a match the
    result is the one hour token of the matched user, which verifies to
    exactly that user id precisely at the instants below issueTime plus
    3600 seconds; on a mismatch the result is the 400 invalid credentials
    response. -/
theorem login_token_iff (store : List User) (email pw secret : String) (now : Nat) :
    ((∃ tok, login store email pw secret now false = LoginResult.okTok tok) ↔
      ∃ u, store.find? (fun v => v.email == email) = some u
        ∧ bcryptCompare pw u.password = true)
    ∧ (∀ u, store.find? (fun v => v.email == email) = some u →
        bcryptCompare pw u.password = true →
        login store email pw secret now false = LoginResult.okTok (jwtSign u.id secret now)
        ∧ ∀ t, (jwtVerifyTok (jwtSign u.id secret now) secret t = some u.id ↔ t < now + 3600))
    ∧ ((¬ ∃ u, store.find? (fun v => v.email == email) = some u
          ∧ bcryptCompare pw u.password = true) →
        login store email pw secret now false = LoginResult.badCreds) := by
  have hval : ∀ (uid : String) (t : Nat),
      jwtVerifyTok (jwtSign uid secret now) secret t = some uid ↔ t < now + 3600 := by
    intro uid t
    by_cases ht : t < now + 3600 <;> simp [jwtVerifyTok, jwtSign, ht]
  cases hfind : store.find? (fun v => v.email == email) with
  | none =>
      refine ⟨⟨?_, ?_⟩, ?_, ?_⟩
      · rintro ⟨tok, htok⟩
        simp [login, hfind] at htok
      · rintro ⟨u, hu, -⟩
        exact absurd hu (by simp)
      · intro u hu
        exact absurd hu (by simp)
      · intro _
        simp [login, hfind]
  | some u =>
      by_cases hcmp : bcryptCompare pw u.password
      · refine ⟨⟨?_, ?_⟩, ?_, ?_⟩
        · intro _
          exact ⟨u, rfl, hcmp⟩
        · intro _
          exact ⟨jwtSign u.id secret now, by simp [login, hfind, hcmp]⟩
        · intro v hv hcv
          injection hv with huv
          subst huv
          exact ⟨by simp [login, hfind, hcmp], hval u.id⟩
        · intro hno
          exact absurd ⟨u, rfl, hcmp⟩ hno
      · refine ⟨⟨?_, ?_⟩, ?_, ?_⟩
        · rintro ⟨tok, htok⟩
          simp [login, hfind, hcmp] at htok
        · rintro ⟨v, hv, hcv⟩
          injection hv with huv
          subst huv
          exact absurd hcv hcmp
        · intro v hv hcv
          injection hv with huv
          subst huv
          exact absurd hcv hcmp
        · intro _
          simp [login, hfind, hcmp]

theorem login_token_iff_witness :
    login [userBob] "bob@x.com" "pw1" "s" 0 false
      = LoginResult.okTok (jwtSign "u1" "s" 0)
    ∧ jwtVerifyTok (jwtSign "u1" "s" 0) "s" 3599 = some "u1"
    ∧ jwtVerifyTok (jwtSign "u1" "s" 0) "s" 3600 = none := by
  obtain ⟨-, h2, -⟩ := login_token_iff [userBob] "bob@x.com" "pw1" "s" 0
  obtain ⟨htok, hval⟩ := h2 userBob (by decide) (by decide)
  exact ⟨htok, (hval 3599).mpr (by decide), by decide⟩

/-- C9: on a protected route, an absent authorization header, a header
    without a second word, an empty second word, or a second word failing
    verification each produce the corresponding 401 response with the
    stores returned untouched and no store operation logged, for every
    handler that could sit behind the middleware: the handler never runs. -/
theorem protected_rejects_before_store (verify : List Char → Option String)
    (handler : String → Stores → ApiResponse × Stores × List StoreOp) (st : Stores) :
    (runProtected verify none handler st = (noTokenResp, st, []))
    ∧ (∀ h, (jsSplit h).get? 1 = none →
        runProtected verify (some h) handler st = (noTokenResp, st, []))
    ∧ (∀ h, (jsSplit h).get? 1 = some [] →
        runProtected verify (some h) handler st = (noTokenResp, st, []))
    ∧ (∀ h t, (jsSplit h).get? 1 = some t → t ≠ [] → verify t = none →
        runProtected verify (some h) handler st = (invalidTokenResp, st, [])) := by
  refine ⟨rfl, ?_, ?_, ?_⟩
  · intro h hh
    simp only [runProtected, authCheck]
    rw [hh]
  · intro h hh
    simp only [runProtected, authCheck]
    rw [hh]
    simp
  · intro h t hh htne hv
    simp only [runProtected, authCheck]
    rw [hh]
    simp [htne, hv]

/-- A concrete verifier accepting exactly the token tok for user u1. -/
def verifyStub : List Char → Option String :=
  fun t => if t = ['t', 'o', 'k'] then some "u1" else none

/-- A concrete handler touching the user store. -/
def handlerStub : String → Stores → ApiResponse × Stores × List StoreOp :=
  fun uid st => (⟨200, uid⟩, st, [StoreOp.readUsers])

def emptyStores : Stores := ⟨[], []⟩

theorem protected_rejects_before_store_witness :
    runProtected verifyStub none handlerStub emptyStores = (noTokenResp, emptyStores, [])
    ∧ runProtected verifyStub (some ['a', 'b', 'c']) handlerStub emptyStores
        = (noTokenResp, emptyStores, [])
    ∧ runProtected verifyStub (some ['B', 'e', 'a', 'r', 'e', 'r', ' ', 'b', 'a', 'd'])
        handlerStub emptyStores = (invalidTokenResp, emptyStores, []) := by
  obtain ⟨h1, h2, -, h4⟩ := protected_rejects_before_store verifyStub handlerStub emptyStores
  exact ⟨h1, h2 ['a', 'b', 'c'] (by decide),
    h4 ['B', 'e', 'a', 'r', 'e', 'r', ' ', 'b', 'a', 'd'] ['b', 'a', 'd']
      (by decide) (by decide) (by decide)⟩

/-- C10: the middleware takes the second space separated word of the
    header as the token and never inspects the scheme word: any header
    whose second word verifies authenticates, whatever its first word is;
    while a header that is one single word without a space is rejected as
    the no-token 401, never the invalid-token 401, even when that word
    itself would verify, since verification is not reached. -/
theorem authCheck_second_word (verify : List Char → Option String) :
    (∀ s t uid, ' ' ∉ s → ' ' ∉ t → t ≠ [] → verify t = some uid →
        authCheck verify (some (s ++ ' ' :: t)) = AuthResult.okUser uid)
    ∧ (∀ s, ' ' ∉ s → authCheck verify (some s) = AuthResult.noToken) := by
  constructor
  · intro s t uid hs ht htne hv
    simp only [authCheck]
    rw [jsSplit_word_space s t hs, jsSplit_no_space t ht]
    simp [htne, hv]
  · intro s hs
    simp only [authCheck]
    rw [jsSplit_no_space s hs]
    simp

theorem authCheck_second_word_witness :
    authCheck verifyStub (some (['B', 'a', 's', 'i', 'c'] ++ ' ' :: ['t', 'o', 'k']))
      = AuthResult.okUser "u1"
    ∧ authCheck verifyStub (some ['t', 'o', 'k']) = AuthResult.noToken := by
  obtain ⟨h1, h2⟩ := authCheck_second_word verifyStub
  exact ⟨h1 ['B', 'a', 's', 'i', 'c'] ['t', 'o', 'k'] "u1"
      (by decide) (by decide) (by decide) (by decide),
    h2 ['t', 'o', 'k'] (by decide)⟩

/-- C1 counterexample: the record is created, the classify call fails,
    and the catch block save also rejects; the exception escapes the catch
    block and the document stays persisted as processing, not error. -/
theorem upload_error_status_cex :
    pipelineFails oracleDoubleFault = true
    ∧ (uploadHandler reqPdf oracleDoubleFault).2.persisted.map Doc.status
        = some DocStatus.processing
    ∧ (uploadHandler reqPdf oracleDoubleFault).2.persisted.map Doc.status
        ≠ some DocStatus.error := by
  decide

/-- C1 amended: once the record is created, any later pipeline failure,
    in the classify call, the response success flag, the analyzed save or
    the cleanup, leaves the document persisted with status error, provided
    the catch block save itself succeeds. -/
theorem upload_error_status_persisted (req : UploadReq) (o : UploadOracle) (f : FileInfo)
    (hf : req.file = some f) (hc : o.createSaveOk = true)
    (hp : pipelineFails o = true) (he : o.errorSaveOk = true) :
    (uploadHandler req o).2.persisted.map Doc.status = some DocStatus.error := by
  cases hcr : o.classifyResult with
  | ok r =>
      cases hs : r.success with
      | false =>
          simp [uploadHandler, hf, hc, hcr, hs, he, catchBlock_persisted]
      | true =>
          cases ha : o.analyzedSaveOk with
          | false =>
              simp [uploadHandler, hf, hc, hcr, hs, ha, he, catchBlock_persisted]
          | true =>
              cases hu : o.successUnlinkOk with
              | false =>
                  simp [uploadHandler, hf, hc, hcr, hs, ha, hu, he, catchBlock_persisted]
              | true =>
                  simp [pipelineFails, hcr, hs, ha, hu] at hp
  | connRefused =>
      simp [uploadHandler, hf, hc, hcr, he, catchBlock_persisted]
  | httpResp e =>
      simp [uploadHandler, hf, hc, hcr, he, catchBlock_persisted]
  | netOther =>
      simp [uploadHandler, hf, hc, hcr, he, catchBlock_persisted]

theorem upload_error_status_persisted_witness :
    pipelineFails oracleClassifyFail = true
    ∧ (uploadHandler reqPdf oracleClassifyFail).2.persisted.map Doc.status
        = some DocStatus.error :=
  ⟨by decide,
   upload_error_status_persisted reqPdf oracleClassifyFail pdfFile rfl rfl (by decide) rfl⟩

/-- C2 counterexample: the classify call fails and the catch block save
    rejects; the escaping exception skips the cleanup, the handler sends
    no response and the temporary file remains on disk. -/
theorem upload_cleanup_cex :
    (uploadHandler reqPdf oracleDoubleFault).2.tempFile = true
    ∧ (uploadHandler reqPdf oracleDoubleFault).1 = UploadOutcome.crashed := by
  decide

/-- C2 amended: whenever the catch block save and the catch block unlink
    succeed, the temporary file is gone on every exit path of the route,
    on success as well as on any pipeline failure. -/
theorem upload_cleanup_on_exit (req : UploadReq) (o : UploadOracle)
    (hs : o.errorSaveOk = true) (hu : o.errorUnlinkOk = true) :
    (uploadRoute req o).2.tempFile = false := by
  cases hf : req.file with
  | none => simp [uploadRoute, uploadHandler, hf]
  | some f =>
      by_cases hm : f.mimetype = "application/pdf"
      · by_cases hsz : f.size ≤ 10485760
        · cases hcs : o.createSaveOk with
          | false =>
              simp [uploadRoute, uploadHandler, hf, hm, hsz, hcs, hs, hu, catchBlock_tempFile]
          | true =>
              cases hcr : o.classifyResult with
              | ok r =>
                  cases hrs : r.success with
                  | false =>
                      simp [uploadRoute, uploadHandler, hf, hm, hsz, hcs, hcr, hrs,
                        hs, hu, catchBlock_tempFile]
                  | true =>
                      cases ha : o.analyzedSaveOk with
                      | false =>
                          simp [uploadRoute, uploadHandler, hf, hm, hsz, hcs, hcr, hrs,
                            ha, hs, hu, catchBlock_tempFile]
                      | true =>
                          cases hul : o.successUnlinkOk with
                          | false =>
                              simp [uploadRoute, uploadHandler, hf, hm, hsz, hcs, hcr,
                                hrs, ha, hul, hs, hu, catchBlock_tempFile]
                          | true =>
                              simp [uploadRoute, uploadHandler, hf, hm, hsz, hcs, hcr,
                                hrs, ha, hul]
              | connRefused =>
                  simp [uploadRoute, uploadHandler, hf, hm, hsz, hcs, hcr,
                    hs, hu, catchBlock_tempFile]
              | httpResp e =>
                  simp [uploadRoute, uploadHandler, hf, hm, hsz, hcs, hcr,
                    hs, hu, catchBlock_tempFile]
              | netOther =>
                  simp [uploadRoute, uploadHandler, hf, hm, hsz, hcs, hcr,
                    hs, hu, catchBlock_tempFile]
        · simp [uploadRoute, hf, hm, hsz]
      · simp [uploadRoute, hf, hm]

theorem upload_cleanup_on_exit_witness :
    oracleClassifyFail.errorSaveOk = true
    ∧ oracleClassifyFail.errorUnlinkOk = true
    ∧ (uploadRoute reqPdf oracleClassifyFail).2.tempFile = false :=
  ⟨rfl, rfl, upload_cleanup_on_exit reqPdf oracleClassifyFail rfl rfl⟩

/-- C3 counterexample: every step up to and including the analyzed save
    succeeds, then the success path unlink throws; the catch block
    re-persists the very document already stored as analyzed with status
    error, so the persisted status sequence regresses from analyzed to
    error within one request. -/
theorem upload_status_regression_cex :
    (uploadHandler reqPdf oracleUnlinkFail).2.saves
      = [DocStatus.processing, DocStatus.analyzed, DocStatus.error]
    ∧ (uploadHandler reqPdf oracleUnlinkFail).2.persisted.map Doc.status
        = some DocStatus.error := by
  decide

/-- C3 amended: over one upload request the sequence of persisted
    statuses is always one of the listed traces: it can only start with
    processing, or with error when the initial save failed but the catch
    block save succeeded; analyzed follows only processing; error is only
    ever last; and the regression from a persisted analyzed to error
    happens exactly in the trace where the success path unlink failed. -/
theorem upload_status_trace (req : UploadReq) (o : UploadOracle) :
    (uploadHandler req o).2.saves = []
    ∨ (uploadHandler req o).2.saves = [DocStatus.error]
    ∨ (uploadHandler req o).2.saves = [DocStatus.processing]
    ∨ (uploadHandler req o).2.saves = [DocStatus.processing, DocStatus.error]
    ∨ (uploadHandler req o).2.saves = [DocStatus.processing, DocStatus.analyzed]
    ∨ ((uploadHandler req o).2.saves
          = [DocStatus.processing, DocStatus.analyzed, DocStatus.error]
        ∧ o.successUnlinkOk = false) := by
  cases hf : req.file with
  | none =>
      left
      simp [uploadHandler, hf]
  | some f =>
      cases hcs : o.createSaveOk with
      | false =>
          cases he : o.errorSaveOk with
          | true =>
              right; left
              simp [uploadHandler, hf, hcs, catchBlock_saves, he, persist]
          | false =>
              left
              simp [uploadHandler, hf, hcs, catchBlock_saves, he, persist]
      | true =>
          cases hcr : o.classifyResult with
          | ok r =>
              cases hrs : r.success with
              | false =>
                  cases he : o.errorSaveOk with
                  | true =>
                      right; right; right; left
                      simp [uploadHandler, hf, hcs, hcr, hrs, catchBlock_saves, he, persist]
                  | false =>
                      right; right; left
                      simp [uploadHandler, hf, hcs, hcr, hrs, catchBlock_saves, he, persist]
              | true =>
                  cases ha : o.analyzedSaveOk with
                  | false =>
                      cases he : o.errorSaveOk with
                      | true =>
                          right; right; right; left
                          simp [uploadHandler, hf, hcs, hcr, hrs, ha,
                            catchBlock_saves, he, persist]
                      | false =>
                          right; right; left
                          simp [uploadHandler, hf, hcs, hcr, hrs, ha,
                            catchBlock_saves, he, persist]
                  | true =>
                      cases hul : o.successUnlinkOk with
                      | true =>
                          right; right; right; right; left
                          simp [uploadHandler, hf, hcs, hcr, hrs, ha, hul, persist,
                            applyClassification_status]
                      | false =>
                          cases he : o.errorSaveOk with
                          | true =>
                              right; right; right; right; right
                              refine ⟨?_, rfl⟩
                              simp [uploadHandler, hf, hcs, hcr, hrs, ha, hul,
                                catchBlock_saves, he, persist, applyClassification_status]
                          | false =>
                              right; right; right; right; left
                              simp [uploadHandler, hf, hcs, hcr, hrs, ha, hul,
                                catchBlock_saves, he, persist, applyClassification_status]
          | connRefused =>
              cases he : o.errorSaveOk with
              | true =>
                  right; right; right; left
                  simp [uploadHandler, hf, hcs, hcr, catchBlock_saves, he, persist]
              | false =>
                  right; right; left
                  simp [uploadHandler, hf, hcs, hcr, catchBlock_saves, he, persist]
          | httpResp e =>
              cases he : o.errorSaveOk with
              | true =>
                  right; right; right; left
                  simp [uploadHandler, hf, hcs, hcr, catchBlock_saves, he, persist]
              | false =>
                  right; right; left
                  simp [uploadHandler, hf, hcs, hcr, catchBlock_saves, he, persist]
          | netOther =>
              cases he : o.errorSaveOk with
              | true =>
                  right; right; right; left
                  simp [uploadHandler, hf, hcs, hcr, catchBlock_saves, he, persist]
              | false =>
                  right; right; left
                  simp [uploadHandler, hf, hcs, hcr, catchBlock_saves, he, persist]

/-- C5 counterexample: a non pdf upload is rejected through the express
    default error handler with status 500, not with the claimed 400,
    though indeed before any document record is created. -/
theorem upload_non_pdf_cex :
    outcomeStatus (uploadRoute reqTxt oracleAllOk).1 = some 500
    ∧ outcomeStatus (uploadRoute reqTxt oracleAllOk).1 ≠ some 400
    ∧ (uploadRoute reqTxt oracleAllOk).2.persisted = none
    ∧ (uploadRoute reqTxt oracleAllOk).2.saves = [] := by
  decide

/-- C5 amended: a request with no file is rejected 400 by the handler
    itself, and a non pdf or oversize file is rejected by the multer
    error through the default error handler with status 500; in every
    such case the rejection happens before any document record is
    created or any status persisted. -/
theorem upload_reject_before_create (req : UploadReq) (o : UploadOracle)
    (h : badUploadReq req = true) :
    (uploadRoute req o).2.persisted = none
    ∧ (uploadRoute req o).2.saves = []
    ∧ (req.file = none →
        (uploadRoute req o).1 = UploadOutcome.responded 400 "No document file uploaded")
    ∧ (req.file ≠ none → outcomeStatus (uploadRoute req o).1 = some 500) := by
  cases hf : req.file with
  | none =>
      refine ⟨?_, ?_, ?_, ?_⟩ <;> simp [uploadRoute, uploadHandler, outcomeStatus, hf]
  | some f =>
      have hbad : ((f.mimetype != "application/pdf") || decide (10485760 < f.size)) = true := by
        have := h
        rw [badUploadReq, hf] at this
        exact this
      by_cases hm : f.mimetype = "application/pdf"
      · have hsz : ¬ f.size ≤ 10485760 := by
          rw [hm] at hbad
          simp at hbad
          exact Nat.not_le.mpr hbad
        refine ⟨?_, ?_, ?_, ?_⟩ <;>
          simp [uploadRoute, outcomeStatus, hf, hm, hsz]
      · refine ⟨?_, ?_, ?_, ?_⟩ <;>
          simp [uploadRoute, outcomeStatus, hf, hm]

theorem upload_reject_before_create_witness :
    badUploadReq reqTxt = true
    ∧ (uploadRoute reqTxt oracleAllOk).2.persisted = none
    ∧ (uploadRoute reqTxt oracleAllOk).2.saves = []
    ∧ outcomeStatus (uploadRoute reqTxt oracleAllOk).1 = some 500 := by
  obtain ⟨h1, h2, -, h4⟩ := upload_reject_before_create reqTxt oracleAllOk (by decide)
  exact ⟨by decide, h1, h2, h4 (by decide)⟩

/-- C6: when the classification service responds with success and the
    following save and cleanup go through, the persisted document carries
    status analyzed and every snake case response field mapped onto its
    analysis fields; when a jargon analysis is present, each incoming
    jargon entry appears in the stored map with originalTerm given by the
    truthiness fallback of the source: the provided original_term when it
    is a nonempty string, and the term key itself when the field is
    absent, or present but empty and hence falsy; the remaining jargon
    fields take their source defaults. -/
theorem upload_success_mapping (req : UploadReq) (o : UploadOracle)
    (f : FileInfo) (r : ClassResponse)
    (hf : req.file = some f) (hc : o.createSaveOk = true)
    (hcr : o.classifyResult = ClassifyOutcome.ok r) (hs : r.success = true)
    (ha : o.analyzedSaveOk = true) (hu : o.successUnlinkOk = true) :
    ∃ d, (uploadHandler req o).2.persisted = some d
      ∧ d.status = DocStatus.analyzed
      ∧ d.classification = some r.classification
      ∧ d.confidence = some r.confidence
      ∧ d.keyTerms = r.key_terms
      ∧ d.summary = r.summary
      ∧ d.importantDates = r.important_dates
      ∧ d.partiesInvolved = r.parties_involved
      ∧ (r.jargon_analysis = none → d.jargonAnalysis = none)
      ∧ (∀ ja, r.jargon_analysis = some ja →
          ∃ jA, d.jargonAnalysis = some jA
            ∧ jA.simplifiedText = ja.simplified_text.getD ""
            ∧ jA.totalJargons = ja.total_jargons.getD 0
            ∧ jA.jargonSummary = ja.jargon_summary.getD ""
            ∧ jA.complexityAnalysis = ja.complexity_analysis.getD ⟨"Unknown", 0, 0, 0⟩
            ∧ (∀ term info, (term, info) ∈ ja.jargons_found.getD [] →
                (term, (⟨info.meaning, info.occurrences,
                          jsOr info.original_term term⟩ : JargonInfo))
                  ∈ jA.jargonsFound)
            ∧ (∀ term info, (term, info) ∈ ja.jargons_found.getD [] →
                info.original_term = none →
                (term, (⟨info.meaning, info.occurrences, term⟩ : JargonInfo))
                  ∈ jA.jargonsFound)
            ∧ (∀ term info, (term, info) ∈ ja.jargons_found.getD [] →
                info.original_term = some "" →
                (term, (⟨info.meaning, info.occurrences, term⟩ : JargonInfo))
                  ∈ jA.jargonsFound)
            ∧ (∀ term info s, (term, info) ∈ ja.jargons_found.getD [] →
                info.original_term = some s → s ≠ "" →
                (term, (⟨info.meaning, info.occurrences, s⟩ : JargonInfo))
                  ∈ jA.jargonsFound)) := by
  refine ⟨applyClassification
      ⟨req.newDocId, req.userId, f.originalname, DocStatus.processing,
        none, none, [], "", [], [], none⟩ r, ?_, ?_, ?_, ?_, ?_, ?_, ?_, ?_, ?_, ?_⟩
  · simp [uploadHandler, hf, hc, hcr, hs, ha, hu, persist]
  · exact applyClassification_status _ r
  · exact applyClassification_classification _ r
  · exact applyClassification_confidence _ r
  · exact applyClassification_keyTerms _ r
  · exact applyClassification_summary _ r
  · exact applyClassification_importantDates _ r
  · exact applyClassification_partiesInvolved _ r
  · intro hja
    unfold applyClassification
    rw [hja]
  · intro ja hja
    unfold applyClassification
    rw [hja]
    refine ⟨_, rfl, rfl, rfl, rfl, rfl, ?_, ?_, ?_, ?_⟩
    · intro term info hmem
      exact List.mem_map.mpr ⟨(term, info), hmem, rfl⟩
    · intro term info hmem hnone
      have h : (term, (⟨info.meaning, info.occurrences,
          jsOr info.original_term term⟩ : JargonInfo)) ∈
            (ja.jargons_found.getD []).map (fun p =>
              (p.1, ⟨p.2.meaning, p.2.occurrences, jsOr p.2.original_term p.1⟩)) :=
        List.mem_map.mpr ⟨(term, info), hmem, rfl⟩
      rw [hnone] at h
      simpa [jsOr] using h
    · intro term info hmem hempty
      have h : (term, (⟨info.meaning, info.occurrences,
          jsOr info.original_term term⟩ : JargonInfo)) ∈
            (ja.jargons_found.getD []).map (fun p =>
              (p.1, ⟨p.2.meaning, p.2.occurrences, jsOr p.2.original_term p.1⟩)) :=
        List.mem_map.mpr ⟨(term, info), hmem, rfl⟩
      rw [hempty] at h
      simpa [jsOr] using h
    · intro term info s hmem hsome hne
      have h : (term, (⟨info.meaning, info.occurrences,
          jsOr info.original_term term⟩ : JargonInfo)) ∈
            (ja.jargons_found.getD []).map (fun p =>
              (p.1, ⟨p.2.meaning, p.2.occurrences, jsOr p.2.original_term p.1⟩)) :=
        List.mem_map.mpr ⟨(term, info), hmem, rfl⟩
      rw [hsome] at h
      simpa [jsOr, hne] using h

/-- A response like the NDA scenario but whose jargon entry carries a
    present yet empty, hence falsy, original_term field. -/
def rEmptyTerm : ClassResponse :=
  ⟨true, "NDA", 0.92, [], "", [], [],
    some ⟨some [("indemnify", ⟨"compensate for harm", 2, some ""⟩)], none, none, none, none⟩⟩

/-- Oracle where every step succeeds and the service returns the empty
    original_term response. -/
def oracleEmptyTerm : UploadOracle := ⟨true, .ok rEmptyTerm, true, true, true, true⟩

/-- C6 witness: the NDA scenario of the spec, evaluated through the whole
    pipeline: the persisted document is analyzed, classified NDA, and the
    stored jargon entry for indemnify has originalTerm indemnify; the last
    conjunct checks the falsy fallback concretely: an empty original_term
    also stores the term key. -/
theorem upload_success_mapping_witness :
    (uploadHandler reqPdf oracleAllOk).2.persisted.map Doc.status = some DocStatus.analyzed
    ∧ (uploadHandler reqPdf oracleAllOk).2.persisted.map Doc.classification
        = some (some "NDA")
    ∧ (uploadHandler reqPdf oracleAllOk).2.persisted.map
          (fun d => d.jargonAnalysis.map (fun j => List.lookup "indemnify" j.jargonsFound))
        = some (some (some (⟨"compensate for harm", 2, "indemnify"⟩ : JargonInfo)))
    ∧ (uploadHandler reqPdf oracleEmptyTerm).2.persisted.map
          (fun d => d.jargonAnalysis.map (fun j => List.lookup "indemnify" j.jargonsFound))
        = some (some (some (⟨"compensate for harm", 2, "indemnify"⟩ : JargonInfo))) := by
  obtain ⟨d, hd, hstat, hcls, -⟩ :=
    upload_success_mapping reqPdf oracleAllOk pdfFile rNda rfl rfl rfl rfl rfl rfl
  refine ⟨?_, ?_, by decide, by decide⟩
  · rw [hd]
    simp [hstat]
  · rw [hd]
    simp [hcls]
    rfl

end Law
